import Mathlib

/-!
# Alchemy viewer: transaction log floater and volume-object bookkeeping

A shallow embedding of

* `indra/newview/llfloatertransactionlog.cpp` (the transaction log floater), and
* the inline members of `LLVOVolume` in `indra/newview/llvovolume.h`
  (LOD sentinel, dirty flags, fetch counters),

together with the properties of the specification that concern them.

Conventions.

* `S32` members are integers kept in the range `[-2^31, 2^31)`; the result of
  every `+=`, `++`, `--` and unary minus is reduced with `wrapS32`
  (two's complement).
* `BOOL` members are modelled by `Bool`.
* Widgets, the string table of the floater, the date formatter and the avatar
  name cache are outside the modelled sources; what the code reads from them is
  a parameter (`Externals`) or a small explicit model that says so.
* Members of `LLVOVolume` that llvovolume.h only declares (`computeLODDetail`,
  `getRenderCost`) have their bodies in llvovolume.cpp; they are modelled from
  the specification, and their doc comments say so.
-/

namespace Alchemy

/-! ## Machine integers -/

/-- Two's complement reduction of an integer to the range of `S32`. -/
def wrapS32 (x : Int) : Int := (x + 2 ^ 31) % 2 ^ 32 - 2 ^ 31

/-- Largest value of `S32`. -/
def S32_MAX : Int := 2 ^ 31 - 1

/-- Smallest value of `S32`. -/
def S32_MIN : Int := -(2 ^ 31)

/-- Membership in the range of `S32`. -/
def inS32 (x : Int) : Prop := S32_MIN ≤ x ∧ x ≤ S32_MAX

instance (x : Int) : Decidable (inS32 x) := by
  unfold inS32; exact inferInstance

/-! ## Values handled by the transaction log -/

/-- Identifier of an agent (`LLUUID`); only identity matters here. -/
structure LLUUID where
  id : Nat
deriving DecidableEq, Repr

/-- Time stamp (`LLDate`); it is only handed to the date formatter. -/
structure LLDate where
  mSecondsSinceEpoch : Nat
deriving DecidableEq, Repr

/-- Result of a name lookup (`LLAvatarName`); only what `getDisplayName()`
returns is represented. -/
structure LLAvatarName where
  mDisplayName : String
deriving DecidableEq, Repr

/-- Accessor `LLAvatarName::getDisplayName`. -/
def LLAvatarName.getDisplayName (n : LLAvatarName) : String := n.mDisplayName

/-- Horizontal alignment constants of `LLFontGL`. -/
inductive HAlign where
  | LEFT
  | RIGHT
  | HCENTER
deriving DecidableEq, Repr

/-- One element of the array `row["column"]`: the keys the floater writes. -/
structure LLSDColumn where
  column : Option String
  value : Option String
  halign : Option HAlign
deriving DecidableEq, Repr

/-- An undefined `LLSD` element, as created when an array is grown. -/
def LLSDColumn.undef : LLSDColumn := ⟨none, none, none⟩

/-- The `LLSD` row built by `addTransaction`: `row["value"]` and the array
`row["column"]`. -/
structure LLSDRow where
  value : Option LLUUID
  column : List LLSDColumn
deriving DecidableEq, Repr

/-- A default constructed `LLSD row;`. -/
def LLSDRow.empty : LLSDRow := ⟨none, []⟩

/-- Mutable array access `a[i]` of `LLSD` followed by an update of the element:
the array is first grown with undefined elements up to index `i`. -/
def LLSDColumn.refAt : List LLSDColumn → Nat → (LLSDColumn → LLSDColumn) → List LLSDColumn
  | [], 0, f => [f LLSDColumn.undef]
  | [], i + 1, f => LLSDColumn.undef :: LLSDColumn.refAt [] i f
  | c :: cs, 0, f => f c :: cs
  | c :: cs, i + 1, f => c :: LLSDColumn.refAt cs i f

/-- Assignment `row["column"][i]["column"] = name`. -/
def LLSDRow.setColumnName (row : LLSDRow) (i : Nat) (name : String) : LLSDRow :=
  { row with column := LLSDColumn.refAt row.column i (fun c => { c with column := some name }) }

/-- Assignment `row["column"][i]["value"] = v`. -/
def LLSDRow.setColumnValue (row : LLSDRow) (i : Nat) (v : String) : LLSDRow :=
  { row with column := LLSDColumn.refAt row.column i (fun c => { c with value := some v }) }

/-- Assignment `row["column"][i]["halign"] = h`. -/
def LLSDRow.setColumnHAlign (row : LLSDRow) (i : Nat) (h : HAlign) : LLSDRow :=
  { row with column := LLSDColumn.refAt row.column i (fun c => { c with halign := some h }) }

/-- What the floater reads from code outside the modelled sources: the string
table lookup `getString(name, args)` with the single argument `TOTAL`, and
`LLDate::toHTTPDateString(fmt)`. -/
structure Externals where
  getString : String → String → String
  toHTTPDateString : LLDate → String → String

/-- A concrete string table and date formatter, used to evaluate examples. -/
def Externals.sample : Externals :=
  { getString := fun name total => name ++ ":" ++ total
    toHTTPDateString := fun date _ => toString date.mSecondsSinceEpoch }

/-- C formatting `llformat("L$%d", x)`. -/
def llformatLindens (x : Int) : String := "L$" ++ toString x

/-- C++ `std::to_string` on an `S32`. -/
def to_string (x : Int) : String := toString x

/-! ## The avatar name cache -/

/-- A callback registered with the name cache: the bound arguments of
`boost::bind(&LLFloaterTransactionLog::onAvatarNameCache, this, _1, _2, row)`
together with the key of the lookup and the state of its connection. -/
structure NameCacheSlot where
  agent_id : LLUUID
  row : LLSDRow
  connected : Bool
deriving DecidableEq, Repr

/-- Modelled from the spec: `LLAvatarNameCache` is not part of the modelled
sources.  The spec says the floater "resolves display names asynchronously via
a name-cache lookup keyed by counterparty id": a lookup registers a callback
and returns; the callback is delivered later, in any order.  The cache is the
list of registered callbacks; a connection is an index into it. -/
abbrev LLAvatarNameCache := List NameCacheSlot

/-- Registration `LLAvatarNameCache::get(agent_id, callback)`: the new slot is
appended and its index is the returned connection. -/
def LLAvatarNameCache.get (cache : LLAvatarNameCache) (agent_id : LLUUID) (row : LLSDRow) :
    LLAvatarNameCache × Nat :=
  (cache ++ [⟨agent_id, row, true⟩], cache.length)

/-- Test `connection.connected()`. -/
def LLAvatarNameCache.connected (cache : LLAvatarNameCache) (c : Nat) : Bool :=
  match cache.get? c with
  | some slot => slot.connected
  | none => false

/-- Call `connection.disconnect()`. -/
def LLAvatarNameCache.disconnect : LLAvatarNameCache → Nat → LLAvatarNameCache
  | [], _ => []
  | slot :: rest, 0 => { slot with connected := false } :: rest
  | slot :: rest, c + 1 => slot :: LLAvatarNameCache.disconnect rest c

/-! ## The floater -/

/-- State of `LLFloaterTransactionLog` once `postBuild` has fetched its child
widgets: `mList` is the item list of the scroll list, the two text members are
the values shown by the text boxes, and `mVisible` is what `getVisible()`
returns. -/
structure LLFloaterTransactionLog where
  mVisible : Bool
  mList : List LLSDRow
  mTotalReceivedText : String
  mTotalSpentText : String
  mReceivedTotal : Int
  mSpentTotal : Int
  mAvatarNameCacheConnection : Option Nat
deriving DecidableEq, Repr

namespace LLFloaterTransactionLog

/-- Constructor followed by `postBuild`: both totals are zero and the stored
connection is empty.  The visibility and the initial contents of the child
widgets come from the floater framework and are parameters. -/
def construct (visible : Bool) (list : List LLSDRow) (received spent : String) :
    LLFloaterTransactionLog :=
  { mVisible := visible
    mList := list
    mTotalReceivedText := received
    mTotalSpentText := spent
    mReceivedTotal := 0
    mSpentTotal := 0
    mAvatarNameCacheConnection := none }

/-- Accessor `getVisible()` of the base class. -/
def getVisible (f : LLFloaterTransactionLog) : Bool := f.mVisible

/-- Method `updateLabels()`. -/
def updateLabels (x : Externals) (f : LLFloaterTransactionLog) : LLFloaterTransactionLog :=
  let receivedArgs := to_string f.mReceivedTotal
  let spentArgs := to_string f.mSpentTotal
  { f with
    mTotalReceivedText := x.getString "total_received_fmt" receivedArgs
    mTotalSpentText := x.getString "total_spent_fmt" spentArgs }

/-- The row built by `addTransaction` before the lookup is issued. -/
def buildRow (x : Externals) (date : LLDate) (sender : LLUUID) (amount : Int) (incoming : Bool) :
    LLSDRow :=
  let row := LLSDRow.empty
  let row := { row with value := some sender }
  let row := row.setColumnName 0 "time"
  let row := row.setColumnValue 0 (x.toHTTPDateString date "%H:%M:%S")
  let row := row.setColumnName 2 "amount"
  let row := row.setColumnValue 2
    (llformatLindens (if incoming then amount else wrapS32 (-amount)))
  row.setColumnHAlign 2 HAlign.RIGHT

/-- Method `addTransaction(date, sender, amount, incoming)`, acting on the floater
and on the name cache in which it registers its callback.  The final assignment
replaces the handle stored in `mAvatarNameCacheConnection`; the member is taken
to be a plain connection handle (its declaration is not part of the modelled
sources), so the assignment changes the state of no connection. -/
def addTransaction (x : Externals) (date : LLDate) (sender : LLUUID) (amount : Int)
    (incoming : Bool) (w : LLFloaterTransactionLog × LLAvatarNameCache) :
    LLFloaterTransactionLog × LLAvatarNameCache :=
  let f := w.1
  -- drop it
  if !f.getVisible then w
  else
    let f :=
      if incoming then { f with mReceivedTotal := wrapS32 (f.mReceivedTotal + amount) }
      else { f with mSpentTotal := wrapS32 (f.mSpentTotal + amount) }
    let f := updateLabels x f
    let row := buildRow x date sender amount incoming
    let r := LLAvatarNameCache.get w.2 sender row
    ({ f with mAvatarNameCacheConnection := some r.2 }, r.1)

/-- Method `onAvatarNameCache(agent_id, av_name, row)`; `addElement` adds the row
at the bottom of the list. -/
def onAvatarNameCache (f : LLFloaterTransactionLog) (_agent_id : LLUUID) (av_name : LLAvatarName)
    (row : LLSDRow) : LLFloaterTransactionLog :=
  let row := row.setColumnName 1 "name"
  let row := row.setColumnValue 1 av_name.getDisplayName
  { f with mList := f.mList ++ [row] }

/-- Body of the destructor `~LLFloaterTransactionLog()`: the connection stored in
`mAvatarNameCacheConnection` is disconnected if it is connected.  Only the
effect of this body on the name cache is given.  The destructors of the base
classes run after it; they are not part of the modelled sources and are not
represented, so the result is not the state after destruction. -/
def destructorBody (w : LLFloaterTransactionLog × LLAvatarNameCache) : LLAvatarNameCache :=
  match w.1.mAvatarNameCacheConnection with
  | some c => if LLAvatarNameCache.connected w.2 c then LLAvatarNameCache.disconnect w.2 c else w.2
  | none => w.2

/-- Method `reset()`. -/
def reset (x : Externals) (f : LLFloaterTransactionLog) : LLFloaterTransactionLog :=
  let f := { f with mList := [] }
  let f := { f with mReceivedTotal := 0 }
  let f := { f with mSpentTotal := 0 }
  updateLabels x f

end LLFloaterTransactionLog

/-- Delivery of the callback registered in slot `c` with the resolved name: a
connected slot fires once, calling `onAvatarNameCache` with its bound row, and
is then released. -/
def LLAvatarNameCache.deliver (c : Nat) (av_name : LLAvatarName)
    (w : LLFloaterTransactionLog × LLAvatarNameCache) :
    LLFloaterTransactionLog × LLAvatarNameCache :=
  match w.2.get? c with
  | some slot =>
    if slot.connected then
      (w.1.onAvatarNameCache slot.agent_id av_name slot.row, LLAvatarNameCache.disconnect w.2 c)
    else w
  | none => w

/-- What can happen to a floater: a transaction is reported, the floater is shown
or hidden, or a pending name lookup is resolved. -/
inductive Event where
  | addTransaction (date : LLDate) (sender : LLUUID) (amount : Int) (incoming : Bool)
  | setVisible (visible : Bool)
  | nameResolved (connection : Nat) (av_name : LLAvatarName)
deriving DecidableEq, Repr

/-- Effect of one event. -/
def Event.apply (x : Externals) (e : Event)
    (w : LLFloaterTransactionLog × LLAvatarNameCache) :
    LLFloaterTransactionLog × LLAvatarNameCache :=
  match e with
  | .addTransaction date sender amount incoming =>
    LLFloaterTransactionLog.addTransaction x date sender amount incoming w
  | .setVisible visible => ({ w.1 with mVisible := visible }, w.2)
  | .nameResolved c av_name => LLAvatarNameCache.deliver c av_name w

/-- Effect of a sequence of events, in order. -/
def runEvents (x : Externals) (es : List Event)
    (w : LLFloaterTransactionLog × LLAvatarNameCache) :
    LLFloaterTransactionLog × LLAvatarNameCache :=
  es.foldl (fun w e => e.apply x w) w

/-- Amounts of all `addTransaction` calls of a sequence with the given direction. -/
def amountsOf (incoming : Bool) : List Event → List Int
  | [] => []
  | .addTransaction _ _ amount inc :: es =>
    if inc = incoming then amount :: amountsOf incoming es else amountsOf incoming es
  | _ :: es => amountsOf incoming es

/-- Amounts of the `addTransaction` calls with the given direction that are made
while the floater is visible; `visible` is the visibility before the sequence. -/
def acceptedAmounts (incoming : Bool) : Bool → List Event → List Int
  | _, [] => []
  | visible, .addTransaction _ _ amount inc :: es =>
    if visible ∧ inc = incoming then amount :: acceptedAmounts incoming visible es
    else acceptedAmounts incoming visible es
  | _, .setVisible visible :: es => acceptedAmounts incoming visible es
  | visible, .nameResolved _ _ :: es => acceptedAmounts incoming visible es

/-- Sum of a list of amounts in `S32` arithmetic. -/
def sumS32 (amounts : List Int) : Int := wrapS32 amounts.sum

/-! ## The volume object -/

/-- Constant `MAX_LOD_FACTOR` of llvovolume.h. -/
def MAX_LOD_FACTOR : ℚ := 4

/-- The members of `LLVOVolume` that the inline member functions of
llvovolume.h read or write.  `F32` members are rationals. -/
structure LLVOVolume where
  mLODDistance : ℚ
  mLODAdjustedDistance : ℚ
  mLODRadius : ℚ
  mFaceMappingChanged : Bool
  mLOD : Int
  mLODChanged : Bool
  mSculptChanged : Bool
  mColorChanged : Bool
  mVolumeChanged : Bool
  mLastFetchedMediaVersion : Int
  mMDCImplCount : Int
  mFetchingMesh : Int
  mFetchingSkinInfo : Int
deriving DecidableEq, Repr

namespace LLVOVolume

/-- A newly created object.  The default member initialisers of llvovolume.h set
`mFetchingMesh = 0` and `mFetchingSkinInfo = 0`; the other members are set by
the constructor in llvovolume.cpp and are taken from `init`. -/
def construct (init : LLVOVolume) : LLVOVolume :=
  { init with mFetchingMesh := 0, mFetchingSkinInfo := 0 }

/-- A concrete object, used to evaluate examples. -/
def sample : LLVOVolume :=
  { mLODDistance := 0
    mLODAdjustedDistance := 0
    mLODRadius := 0
    mFaceMappingChanged := false
    mLOD := 0
    mLODChanged := false
    mSculptChanged := false
    mColorChanged := false
    mVolumeChanged := false
    mLastFetchedMediaVersion := -1
    mMDCImplCount := 0
    mFetchingMesh := 0
    mFetchingSkinInfo := 0 }

/-- Accessor `getLOD()`. -/
def getLOD (v : LLVOVolume) : Int := v.mLOD

/-- Member `setNoLOD()`; the constant `NO_LOD` is declared outside llvovolume.h
and is a parameter. -/
def setNoLOD (NO_LOD : Int) (v : LLVOVolume) : LLVOVolume :=
  { v with mLOD := NO_LOD, mLODChanged := true }

/-- Accessor `isNoLOD()`. -/
def isNoLOD (NO_LOD : Int) (v : LLVOVolume) : Bool := decide (NO_LOD = v.mLOD)

/-- Accessor `getVolumeChanged()`, a `const` member: it returns the flag and the
object is not an output. -/
def getVolumeChanged (v : LLVOVolume) : Bool := v.mVolumeChanged

/-- Member `faceMappingChanged()`. -/
def faceMappingChanged (v : LLVOVolume) : LLVOVolume :=
  { v with mFaceMappingChanged := true }

/-- Accessor `getLastFetchedMediaVersion()`. -/
def getLastFetchedMediaVersion (v : LLVOVolume) : Int := v.mLastFetchedMediaVersion

/-- Member `addMDCImpl()`. -/
def addMDCImpl (v : LLVOVolume) : LLVOVolume :=
  { v with mMDCImplCount := wrapS32 (v.mMDCImplCount + 1) }

/-- Member `removeMDCImpl()`. -/
def removeMDCImpl (v : LLVOVolume) : LLVOVolume :=
  { v with mMDCImplCount := wrapS32 (v.mMDCImplCount - 1) }

/-- Accessor `getMDCImplCount()`. -/
def getMDCImplCount (v : LLVOVolume) : Int := v.mMDCImplCount

/-- Member `incMeshCache()`. -/
def incMeshCache (v : LLVOVolume) : LLVOVolume :=
  { v with mFetchingMesh := wrapS32 (v.mFetchingMesh + 1) }

/-- Member `incSkinCache()`. -/
def incSkinCache (v : LLVOVolume) : LLVOVolume :=
  { v with mFetchingSkinInfo := wrapS32 (v.mFetchingSkinInfo + 1) }

/-- Member `decMeshCache()`. -/
def decMeshCache (v : LLVOVolume) : LLVOVolume :=
  { v with mFetchingMesh := wrapS32 (v.mFetchingMesh - 1) }

/-- Member `decSkinCache()`. -/
def decSkinCache (v : LLVOVolume) : LLVOVolume :=
  { v with mFetchingSkinInfo := wrapS32 (v.mFetchingSkinInfo - 1) }

end LLVOVolume

/-- The four fetch-counter calls. -/
inductive FetchCall where
  | incMeshCache
  | incSkinCache
  | decMeshCache
  | decSkinCache
deriving DecidableEq, Repr

/-- Effect of one fetch-counter call. -/
def FetchCall.apply : FetchCall → LLVOVolume → LLVOVolume
  | .incMeshCache, v => v.incMeshCache
  | .incSkinCache, v => v.incSkinCache
  | .decMeshCache, v => v.decMeshCache
  | .decSkinCache, v => v.decSkinCache

/-- Effect of a sequence of fetch-counter calls, in order. -/
def runFetchCalls (cs : List FetchCall) (v : LLVOVolume) : LLVOVolume :=
  cs.foldl (fun v c => c.apply v) v

/-- A sequence of calls in which every decrement is matched by an earlier
increment of the same kind that no other decrement has matched; `mesh` and
`skin` are the numbers of unmatched increments before the sequence. -/
def matchedCalls : Nat → Nat → List FetchCall → Bool
  | _, _, [] => true
  | mesh, skin, .incMeshCache :: cs => matchedCalls (mesh + 1) skin cs
  | mesh, skin, .incSkinCache :: cs => matchedCalls mesh (skin + 1) cs
  | 0, _, .decMeshCache :: _ => false
  | mesh + 1, skin, .decMeshCache :: cs => matchedCalls mesh skin cs
  | _, 0, .decSkinCache :: _ => false
  | mesh, skin + 1, .decSkinCache :: cs => matchedCalls mesh skin cs

/-! ## LOD selection -/

/-- Modelled from the spec: the body of `LLVOVolume::computeLODDetail` is in
llvovolume.cpp, which is not among the modelled sources.  Spec 4.1: it
"computes a normalized size-to-distance ratio scaled by a global LOD factor and
a per-object radius; maps the ratio through fixed thresholds to one of N
discrete levels (coarsest to finest)", and "radius ≤ 0 or distance ≤ 0 must not
divide-by-zero; clamp to the finest level".  The thresholds are a parameter (the
spec leaves their values open); the levels are `0` (coarsest) to
`thresholds.length` (finest), the level being the number of thresholds that the
ratio exceeds; `F32` values are rationals. -/
def LLVOVolume.computeLODDetail (thresholds : List ℚ) (distance radius lod_factor : ℚ) : Int :=
  if radius ≤ 0 ∨ distance ≤ 0 then (thresholds.length : Int)
  else ((thresholds.filter (fun t => decide (t < lod_factor * radius / distance))).length : Int)

/-! ## Render cost -/

/-- Identity of a texture (`const LLViewerTexture*`). -/
structure LLViewerTexture where
  id : Nat
deriving DecidableEq, Repr

/-- The set of textures already counted, `LLVOVolume::texture_cost_t`. -/
abbrev texture_cost_t := Finset LLViewerTexture

/-- Modelled from the spec: the body of `LLVOVolume::getRenderCost` is in
llvovolume.cpp, which is not among the modelled sources.  Spec 4.4: "texture
cost deduplicates by texture identity across calls by consulting/mutating a
caller-supplied already-counted set — each distinct texture contributes its
cost exactly once per whole-scene pass, regardless of how many faces/objects
reference it".  `faces` lists the texture of each face of the object,
`shapeCost` is the part of the cost that does not come from textures, and
`getTextureCost` is the (absent) static member.  Costs are natural numbers.  The
result is the cost and the updated set. -/
def LLVOVolume.getRenderCost (getTextureCost : LLViewerTexture → Nat) (shapeCost : Nat)
    (faces : List LLViewerTexture) (textures : texture_cost_t) : Nat × texture_cost_t :=
  faces.foldl
    (fun acc img =>
      if img ∈ acc.2 then acc else (acc.1 + getTextureCost img, insert img acc.2))
    (shapeCost, textures)

/-! ## Rigged volume -/

/-- Type `LLRiggedVolume::FaceIndex`, an `S32`. -/
abbrev LLRiggedVolume.FaceIndex := Int

/-- Constant `LLRiggedVolume::UPDATE_ALL_FACES`. -/
def LLRiggedVolume.UPDATE_ALL_FACES : LLRiggedVolume.FaceIndex := -1

/-- Constant `LLRiggedVolume::DO_NOT_UPDATE_FACES`. -/
def LLRiggedVolume.DO_NOT_UPDATE_FACES : LLRiggedVolume.FaceIndex := -2

/-- The trailing arguments `face_index, rebuild_face_octrees` as written at a call
site; both have default values, so a call may leave out both or only the last. -/
inductive FaceArguments where
  | omitted
  | face (face_index : LLRiggedVolume.FaceIndex)
  | full (face_index : LLRiggedVolume.FaceIndex) (rebuild_face_octrees : Bool)
deriving DecidableEq, Repr

/-- The values of `face_index` and `rebuild_face_octrees` that
`LLRiggedVolume::update(skin, avatar, src_volume, face_index = UPDATE_ALL_FACES,
rebuild_face_octrees = true)` receives from a call site. -/
def LLRiggedVolume.updateArguments : FaceArguments → LLRiggedVolume.FaceIndex × Bool
  | .omitted => (LLRiggedVolume.UPDATE_ALL_FACES, true)
  | .face face_index => (face_index, true)
  | .full face_index rebuild_face_octrees => (face_index, rebuild_face_octrees)

/-- The values of `face_index` and `rebuild_face_octrees` that
`LLVOVolume::updateRiggedVolume(force_treat_as_rigged,
face_index = LLRiggedVolume::UPDATE_ALL_FACES, rebuild_face_octrees = true)`
receives from a call site. -/
def LLVOVolume.updateRiggedVolumeArguments : FaceArguments → LLRiggedVolume.FaceIndex × Bool
  | .omitted => (LLRiggedVolume.UPDATE_ALL_FACES, true)
  | .face face_index => (face_index, true)
  | .full face_index rebuild_face_octrees => (face_index, rebuild_face_octrees)

/-! ## Theorems -/

/-! ### Machine integers -/

theorem wrapS32_add_wrapS32 (a b : Int) : wrapS32 (wrapS32 a + b) = wrapS32 (a + b) := by
  unfold wrapS32
  have h : (a + 2 ^ 31) % 2 ^ 32 - 2 ^ 31 + b + 2 ^ 31 = (a + 2 ^ 31) % 2 ^ 32 + b := by ring
  rw [h, Int.emod_add_emod]
  have h2 : a + 2 ^ 31 + b = a + b + 2 ^ 31 := by ring
  rw [h2]

theorem wrapS32_of_inS32 {x : Int} (h : inS32 x) : wrapS32 x = x := by
  unfold inS32 S32_MIN S32_MAX at h
  unfold wrapS32
  rw [Int.emod_eq_of_lt] <;> omega

theorem inS32_wrapS32 (x : Int) : inS32 (wrapS32 x) := by
  unfold inS32 S32_MIN S32_MAX wrapS32
  have h1 := Int.emod_nonneg (x + 2 ^ 31) (show (2 : Int) ^ 32 ≠ 0 by norm_num)
  have h2 := Int.emod_lt_of_pos (x + 2 ^ 31) (show (0 : Int) < 2 ^ 32 by norm_num)
  constructor <;> omega

/-! ### Running totals of the transaction log -/

theorem runEvents_cons (x : Externals) (e : Event) (es : List Event)
    (w : LLFloaterTransactionLog × LLAvatarNameCache) :
    runEvents x (e :: es) w = runEvents x es (e.apply x w) := rfl

theorem deliver_totals (c : Nat) (av_name : LLAvatarName)
    (w : LLFloaterTransactionLog × LLAvatarNameCache) :
    (LLAvatarNameCache.deliver c av_name w).1.mReceivedTotal = w.1.mReceivedTotal ∧
    (LLAvatarNameCache.deliver c av_name w).1.mSpentTotal = w.1.mSpentTotal ∧
    (LLAvatarNameCache.deliver c av_name w).1.mVisible = w.1.mVisible := by
  unfold LLAvatarNameCache.deliver
  split
  · split <;> simp [LLFloaterTransactionLog.onAvatarNameCache]
  · simp

theorem runEvents_received (x : Externals) (es : List Event) :
    ∀ w : LLFloaterTransactionLog × LLAvatarNameCache, inS32 w.1.mReceivedTotal →
      (runEvents x es w).1.mReceivedTotal =
        wrapS32 (w.1.mReceivedTotal + (acceptedAmounts true w.1.mVisible es).sum) := by
  induction es with
  | nil => intro w h; simp [runEvents, acceptedAmounts, wrapS32_of_inS32 h]
  | cons e es ih =>
    intro w h
    rw [runEvents_cons]
    cases e with
    | addTransaction date sender amount incoming =>
      cases hv : w.1.mVisible <;> cases incoming <;>
        simp [Event.apply, LLFloaterTransactionLog.addTransaction,
          LLFloaterTransactionLog.getVisible, LLFloaterTransactionLog.updateLabels,
          LLAvatarNameCache.get, acceptedAmounts, hv]
      · rw [ih w h, hv]
      · rw [ih w h, hv]
      · rw [ih]
        exact h
      · rw [ih]
        · exact (wrapS32_add_wrapS32 _ _).trans (by rw [add_assoc])
        · exact inS32_wrapS32 _
    | setVisible visible =>
      simp only [Event.apply, acceptedAmounts]
      exact ih _ h
    | nameResolved c av_name =>
      obtain ⟨h1, _, h3⟩ := deliver_totals c av_name w
      simp only [Event.apply, acceptedAmounts]
      rw [ih _ (by rw [h1]; exact h), h1, h3]

theorem runEvents_spent (x : Externals) (es : List Event) :
    ∀ w : LLFloaterTransactionLog × LLAvatarNameCache, inS32 w.1.mSpentTotal →
      (runEvents x es w).1.mSpentTotal =
        wrapS32 (w.1.mSpentTotal + (acceptedAmounts false w.1.mVisible es).sum) := by
  induction es with
  | nil => intro w h; simp [runEvents, acceptedAmounts, wrapS32_of_inS32 h]
  | cons e es ih =>
    intro w h
    rw [runEvents_cons]
    cases e with
    | addTransaction date sender amount incoming =>
      cases hv : w.1.mVisible <;> cases incoming <;>
        simp [Event.apply, LLFloaterTransactionLog.addTransaction,
          LLFloaterTransactionLog.getVisible, LLFloaterTransactionLog.updateLabels,
          LLAvatarNameCache.get, acceptedAmounts, hv]
      · rw [ih w h, hv]
      · rw [ih w h, hv]
      · rw [ih]
        · exact (wrapS32_add_wrapS32 _ _).trans (by rw [add_assoc])
        · exact inS32_wrapS32 _
      · rw [ih]
        exact h
    | setVisible visible =>
      simp only [Event.apply, acceptedAmounts]
      exact ih _ h
    | nameResolved c av_name =>
      obtain ⟨_, h2, h3⟩ := deliver_totals c av_name w
      simp only [Event.apply, acceptedAmounts]
      rw [ih _ (by rw [h2]; exact h), h2, h3]

theorem inS32_zero : inS32 0 := by decide

/-- On a floater that is visible and is never hidden, every call is accepted. -/
theorem acceptedAmounts_eq_amountsOf (incoming : Bool) (es : List Event)
    (h : ∀ e ∈ es, e ≠ Event.setVisible false) :
    acceptedAmounts incoming true es = amountsOf incoming es := by
  induction es with
  | nil => rfl
  | cons e es ih =>
    have ih2 := ih (fun e2 h2 => h e2 (List.mem_cons_of_mem _ h2))
    cases e with
    | addTransaction date sender amount inc => simp [acceptedAmounts, amountsOf, ih2]
    | setVisible visible =>
      cases visible with
      | true => simpa [acceptedAmounts, amountsOf] using ih2
      | false => exact absurd rfl (h _ (List.mem_cons_self _ _))
    | nameResolved c av_name => simpa [acceptedAmounts, amountsOf] using ih2

/-- C1 (as amended): starting from a freshly constructed floater, or from any
floater that has just been reset, after every sequence of transactions, changes
of visibility and name-cache deliveries (in any order), the received total is
the `S32` sum of the amounts of the incoming calls made while the floater was
visible, and the spent total is the `S32` sum of the amounts of the outgoing
calls made while it was visible. -/
theorem transaction_log_running_totals (x : Externals) (visible : Bool) (list : List LLSDRow)
    (received spent : String) (cache : LLAvatarNameCache) (f : LLFloaterTransactionLog)
    (es : List Event) :
    ((runEvents x es
        (LLFloaterTransactionLog.construct visible list received spent, cache)).1.mReceivedTotal
        = sumS32 (acceptedAmounts true visible es) ∧
      (runEvents x es
        (LLFloaterTransactionLog.construct visible list received spent, cache)).1.mSpentTotal
        = sumS32 (acceptedAmounts false visible es)) ∧
    ((runEvents x es (LLFloaterTransactionLog.reset x f, cache)).1.mReceivedTotal
        = sumS32 (acceptedAmounts true f.mVisible es) ∧
      (runEvents x es (LLFloaterTransactionLog.reset x f, cache)).1.mSpentTotal
        = sumS32 (acceptedAmounts false f.mVisible es)) := by
  refine ⟨⟨?_, ?_⟩, ⟨?_, ?_⟩⟩
  · rw [runEvents_received x es _ inS32_zero]
    simp [LLFloaterTransactionLog.construct, sumS32]
  · rw [runEvents_spent x es _ inS32_zero]
    simp [LLFloaterTransactionLog.construct, sumS32]
  · rw [runEvents_received x es _ inS32_zero]
    simp [LLFloaterTransactionLog.reset, LLFloaterTransactionLog.updateLabels, sumS32]
  · rw [runEvents_spent x es _ inS32_zero]
    simp [LLFloaterTransactionLog.reset, LLFloaterTransactionLog.updateLabels, sumS32]

/-- C1, the example of the specification on a visible floater: `(t, id, 50, incoming)`
then `(t, id, 20, outgoing)` gives received 50 and spent 20, also when the first
lookup resolves between the two calls. -/
theorem transaction_log_running_totals_witness :
    ((runEvents Externals.sample
        [Event.addTransaction ⟨0⟩ ⟨7⟩ 50 true, Event.nameResolved 0 ⟨"Resident"⟩,
          Event.addTransaction ⟨0⟩ ⟨7⟩ 20 false]
        (LLFloaterTransactionLog.construct true [] "" "", [])).1.mReceivedTotal = 50 ∧
      (runEvents Externals.sample
        [Event.addTransaction ⟨0⟩ ⟨7⟩ 50 true, Event.nameResolved 0 ⟨"Resident"⟩,
          Event.addTransaction ⟨0⟩ ⟨7⟩ 20 false]
        (LLFloaterTransactionLog.construct true [] "" "", [])).1.mSpentTotal = 20) := by
  have h := (transaction_log_running_totals Externals.sample true [] "" "" []
    (LLFloaterTransactionLog.construct true [] "" "")
    [Event.addTransaction ⟨0⟩ ⟨7⟩ 50 true, Event.nameResolved 0 ⟨"Resident"⟩,
      Event.addTransaction ⟨0⟩ ⟨7⟩ 20 false]).1
  refine ⟨h.1.trans ?_, h.2.trans ?_⟩ <;> decide

/-- C1 (as stated) fails: a freshly constructed floater that is not visible drops
both calls, so after `(t, id, 50, incoming)` and `(t, id, 20, outgoing)` the
received total is 0 although the incoming amounts sum to 50, and the spent
total is 0 although the outgoing amounts sum to 20. -/
theorem transaction_log_hidden_counterexample :
    ((runEvents Externals.sample
        [Event.addTransaction ⟨0⟩ ⟨7⟩ 50 true, Event.addTransaction ⟨0⟩ ⟨7⟩ 20 false]
        (LLFloaterTransactionLog.construct false [] "" "", [])).1.mReceivedTotal = 0 ∧
      sumS32 (amountsOf true
        [Event.addTransaction ⟨0⟩ ⟨7⟩ 50 true, Event.addTransaction ⟨0⟩ ⟨7⟩ 20 false]) = 50) ∧
    ((runEvents Externals.sample
        [Event.addTransaction ⟨0⟩ ⟨7⟩ 50 true, Event.addTransaction ⟨0⟩ ⟨7⟩ 20 false]
        (LLFloaterTransactionLog.construct false [] "" "", [])).1.mSpentTotal = 0 ∧
      sumS32 (amountsOf false
        [Event.addTransaction ⟨0⟩ ⟨7⟩ 50 true, Event.addTransaction ⟨0⟩ ⟨7⟩ 20 false]) = 20) ∧
    ¬ ((runEvents Externals.sample
        [Event.addTransaction ⟨0⟩ ⟨7⟩ 50 true, Event.addTransaction ⟨0⟩ ⟨7⟩ 20 false]
        (LLFloaterTransactionLog.construct false [] "" "", [])).1.mReceivedTotal =
      sumS32 (amountsOf true
        [Event.addTransaction ⟨0⟩ ⟨7⟩ 50 true, Event.addTransaction ⟨0⟩ ⟨7⟩ 20 false])) := by
  decide

/-! ### Fetch counters of the volume object -/

theorem runFetchCalls_cons (c : FetchCall) (cs : List FetchCall) (v : LLVOVolume) :
    runFetchCalls (c :: cs) v = runFetchCalls cs (c.apply v) := rfl

theorem wrapS32_of_bounds {x : Int} (h1 : -(2 ^ 31) ≤ x) (h2 : x < 2 ^ 31) : wrapS32 x = x := by
  apply wrapS32_of_inS32
  unfold inS32 S32_MIN S32_MAX
  constructor <;> omega

theorem runFetchCalls_mesh (cs : List FetchCall) :
    ∀ v : LLVOVolume, inS32 v.mFetchingMesh →
      (runFetchCalls cs v).mFetchingMesh =
        wrapS32 (v.mFetchingMesh +
          ((cs.count FetchCall.incMeshCache : Int) - (cs.count FetchCall.decMeshCache : Int))) := by
  induction cs with
  | nil => intro v h; simp [runFetchCalls, wrapS32_of_inS32 h]
  | cons c cs ih =>
    intro v h
    rw [runFetchCalls_cons]
    cases c
    · rw [ih _ (by exact inS32_wrapS32 _)]
      simp only [FetchCall.apply, LLVOVolume.incMeshCache]
      rw [wrapS32_add_wrapS32]
      simp [List.count_cons]
      ring_nf
    · rw [ih _ (by exact h)]
      simp [FetchCall.apply, LLVOVolume.incSkinCache, List.count_cons]
    · rw [ih _ (by exact inS32_wrapS32 _)]
      simp only [FetchCall.apply, LLVOVolume.decMeshCache]
      rw [wrapS32_add_wrapS32]
      simp [List.count_cons]
      ring_nf
    · rw [ih _ (by exact h)]
      simp [FetchCall.apply, LLVOVolume.decSkinCache, List.count_cons]

theorem runFetchCalls_skin (cs : List FetchCall) :
    ∀ v : LLVOVolume, inS32 v.mFetchingSkinInfo →
      (runFetchCalls cs v).mFetchingSkinInfo =
        wrapS32 (v.mFetchingSkinInfo +
          ((cs.count FetchCall.incSkinCache : Int) - (cs.count FetchCall.decSkinCache : Int))) := by
  induction cs with
  | nil => intro v h; simp [runFetchCalls, wrapS32_of_inS32 h]
  | cons c cs ih =>
    intro v h
    rw [runFetchCalls_cons]
    cases c
    · rw [ih _ (by exact h)]
      simp [FetchCall.apply, LLVOVolume.incMeshCache, List.count_cons]
    · rw [ih _ (by exact inS32_wrapS32 _)]
      simp only [FetchCall.apply, LLVOVolume.incSkinCache]
      rw [wrapS32_add_wrapS32]
      simp [List.count_cons]
      ring_nf
    · rw [ih _ (by exact h)]
      simp [FetchCall.apply, LLVOVolume.decMeshCache, List.count_cons]
    · rw [ih _ (by exact inS32_wrapS32 _)]
      simp only [FetchCall.apply, LLVOVolume.decSkinCache]
      rw [wrapS32_add_wrapS32]
      simp [List.count_cons]
      ring_nf

theorem count_sub_count_bounds (cs : List FetchCall) (a b : FetchCall) (h : cs.length < 2 ^ 31) :
    -(2 ^ 31) ≤ ((cs.count a : Int) - (cs.count b : Int)) ∧
      ((cs.count a : Int) - (cs.count b : Int)) < 2 ^ 31 := by
  have ha : cs.count a ≤ cs.length := List.count_le_length a cs
  have hb : cs.count b ≤ cs.length := List.count_le_length b cs
  constructor <;> omega

theorem runFetchCalls_matched (cs : List FetchCall) :
    ∀ (mesh skin : Nat) (v : LLVOVolume), v.mFetchingMesh = mesh → v.mFetchingSkinInfo = skin →
      matchedCalls mesh skin cs = true → mesh + cs.length < 2 ^ 31 → skin + cs.length < 2 ^ 31 →
      0 ≤ (runFetchCalls cs v).mFetchingMesh ∧ 0 ≤ (runFetchCalls cs v).mFetchingSkinInfo := by
  induction cs with
  | nil =>
    intro mesh skin v hm hs _ _ _
    simp [runFetchCalls, hm, hs]
  | cons c cs ih =>
    intro mesh skin v hm hs hmatch hlm hls
    rw [runFetchCalls_cons]
    simp only [List.length_cons] at hlm hls
    cases c with
    | incMeshCache =>
      refine ih (mesh + 1) skin _ ?_ ?_ (by simpa [matchedCalls] using hmatch) (by omega) (by omega)
      · simp only [FetchCall.apply, LLVOVolume.incMeshCache, hm]
        rw [wrapS32_of_bounds (by omega) (by omega)]
        push_cast; ring
      · simpa [FetchCall.apply, LLVOVolume.incMeshCache] using hs
    | incSkinCache =>
      refine ih mesh (skin + 1) _ ?_ ?_ (by simpa [matchedCalls] using hmatch) (by omega) (by omega)
      · simpa [FetchCall.apply, LLVOVolume.incSkinCache] using hm
      · simp only [FetchCall.apply, LLVOVolume.incSkinCache, hs]
        rw [wrapS32_of_bounds (by omega) (by omega)]
        push_cast; ring
    | decMeshCache =>
      cases mesh with
      | zero => simp [matchedCalls] at hmatch
      | succ mesh =>
        refine ih mesh skin _ ?_ ?_ (by simpa [matchedCalls] using hmatch) (by omega) (by omega)
        · simp only [FetchCall.apply, LLVOVolume.decMeshCache, hm]
          rw [wrapS32_of_bounds (by push_cast; omega) (by push_cast; omega)]
          push_cast; ring
        · simpa [FetchCall.apply, LLVOVolume.decMeshCache] using hs
    | decSkinCache =>
      cases skin with
      | zero => simp [matchedCalls] at hmatch
      | succ skin =>
        refine ih mesh skin _ ?_ ?_ (by simpa [matchedCalls] using hmatch) (by omega) (by omega)
        · simpa [FetchCall.apply, LLVOVolume.decSkinCache] using hm
        · simp only [FetchCall.apply, LLVOVolume.decSkinCache, hs]
          rw [wrapS32_of_bounds (by push_cast; omega) (by push_cast; omega)]
          push_cast; ring

/-- C2 (as stated) fails: on a newly created object a single `decMeshCache()`
takes effect and leaves `mFetchingMesh = -1`; likewise `decSkinCache()` leaves
`mFetchingSkinInfo = -1`. -/
theorem fetch_counters_negative_counterexample :
    (runFetchCalls [FetchCall.decMeshCache]
        (LLVOVolume.construct LLVOVolume.sample)).mFetchingMesh = -1 ∧
    (runFetchCalls [FetchCall.decSkinCache]
        (LLVOVolume.construct LLVOVolume.sample)).mFetchingSkinInfo = -1 ∧
    ¬ (0 ≤ (runFetchCalls [FetchCall.decMeshCache]
        (LLVOVolume.construct LLVOVolume.sample)).mFetchingMesh) := by
  decide

/-- C2 (as amended): in every state reached from a newly created object by a
sequence of fewer than 2^31 fetch-counter calls in which every decrement is
matched by an earlier increment of the same kind, `mFetchingMesh ≥ 0` and
`mFetchingSkinInfo ≥ 0`. -/
theorem fetch_counters_nonneg_of_matched (init : LLVOVolume) (cs : List FetchCall)
    (hmatch : matchedCalls 0 0 cs = true) (hlen : cs.length < 2 ^ 31) :
    0 ≤ (runFetchCalls cs (LLVOVolume.construct init)).mFetchingMesh ∧
    0 ≤ (runFetchCalls cs (LLVOVolume.construct init)).mFetchingSkinInfo :=
  runFetchCalls_matched cs 0 0 (LLVOVolume.construct init) rfl rfl hmatch
    (by omega) (by omega)

/-- C2, an instance: increment, decrement and increment again, for both kinds. -/
theorem fetch_counters_nonneg_of_matched_witness :
    matchedCalls 0 0
        [FetchCall.incMeshCache, FetchCall.incSkinCache, FetchCall.decMeshCache,
          FetchCall.decSkinCache, FetchCall.incMeshCache] = true ∧
    0 ≤ (runFetchCalls
        [FetchCall.incMeshCache, FetchCall.incSkinCache, FetchCall.decMeshCache,
          FetchCall.decSkinCache, FetchCall.incMeshCache]
        (LLVOVolume.construct LLVOVolume.sample)).mFetchingMesh ∧
    0 ≤ (runFetchCalls
        [FetchCall.incMeshCache, FetchCall.incSkinCache, FetchCall.decMeshCache,
          FetchCall.decSkinCache, FetchCall.incMeshCache]
        (LLVOVolume.construct LLVOVolume.sample)).mFetchingSkinInfo :=
  ⟨by decide,
    fetch_counters_nonneg_of_matched LLVOVolume.sample
      [FetchCall.incMeshCache, FetchCall.incSkinCache, FetchCall.decMeshCache,
        FetchCall.decSkinCache, FetchCall.incMeshCache] (by decide) (by decide)⟩

/-- C3: on an object whose fetch counters are strictly inside the range of `S32`,
`incMeshCache` raises `mFetchingMesh` by exactly 1 and `incSkinCache` raises
`mFetchingSkinInfo` by exactly 1, each changing no other member;
`decMeshCache` and `decSkinCache` lower them by exactly 1 and are the inverses
of the increments; and after a sequence of fewer than 2^31 calls on a new
object each counter is the number of its increments minus the number of its
decrements. -/
theorem fetch_counters_count (init v : LLVOVolume) (cs : List FetchCall)
    (hm : S32_MIN < v.mFetchingMesh ∧ v.mFetchingMesh < S32_MAX)
    (hs : S32_MIN < v.mFetchingSkinInfo ∧ v.mFetchingSkinInfo < S32_MAX)
    (hlen : cs.length < 2 ^ 31) :
    (v.incMeshCache = { v with mFetchingMesh := v.mFetchingMesh + 1 } ∧
      v.incSkinCache = { v with mFetchingSkinInfo := v.mFetchingSkinInfo + 1 } ∧
      v.decMeshCache = { v with mFetchingMesh := v.mFetchingMesh - 1 } ∧
      v.decSkinCache = { v with mFetchingSkinInfo := v.mFetchingSkinInfo - 1 }) ∧
    (v.incMeshCache.decMeshCache = v ∧ v.decMeshCache.incMeshCache = v ∧
      v.incSkinCache.decSkinCache = v ∧ v.decSkinCache.incSkinCache = v) ∧
    ((runFetchCalls cs (LLVOVolume.construct init)).mFetchingMesh =
        (cs.count FetchCall.incMeshCache : Int) - (cs.count FetchCall.decMeshCache : Int) ∧
      (runFetchCalls cs (LLVOVolume.construct init)).mFetchingSkinInfo =
        (cs.count FetchCall.incSkinCache : Int) - (cs.count FetchCall.decSkinCache : Int)) := by
  unfold S32_MIN S32_MAX at hm hs
  obtain ⟨hm1, hm2⟩ := hm
  obtain ⟨hs1, hs2⟩ := hs
  have e1 : wrapS32 (v.mFetchingMesh + 1) = v.mFetchingMesh + 1 :=
    wrapS32_of_bounds (by omega) (by omega)
  have e2 : wrapS32 (v.mFetchingMesh - 1) = v.mFetchingMesh - 1 :=
    wrapS32_of_bounds (by omega) (by omega)
  have e3 : wrapS32 (v.mFetchingSkinInfo + 1) = v.mFetchingSkinInfo + 1 :=
    wrapS32_of_bounds (by omega) (by omega)
  have e4 : wrapS32 (v.mFetchingSkinInfo - 1) = v.mFetchingSkinInfo - 1 :=
    wrapS32_of_bounds (by omega) (by omega)
  have e5 : wrapS32 v.mFetchingMesh = v.mFetchingMesh :=
    wrapS32_of_bounds (by omega) (by omega)
  have e6 : wrapS32 v.mFetchingSkinInfo = v.mFetchingSkinInfo :=
    wrapS32_of_bounds (by omega) (by omega)
  refine ⟨⟨?_, ?_, ?_, ?_⟩, ⟨?_, ?_, ?_, ?_⟩, ⟨?_, ?_⟩⟩
  · simp [LLVOVolume.incMeshCache, e1]
  · simp [LLVOVolume.incSkinCache, e3]
  · simp [LLVOVolume.decMeshCache, e2]
  · simp [LLVOVolume.decSkinCache, e4]
  · simp [LLVOVolume.incMeshCache, LLVOVolume.decMeshCache, e1, e5]
  · simp [LLVOVolume.incMeshCache, LLVOVolume.decMeshCache, e2, e5]
  · simp [LLVOVolume.incSkinCache, LLVOVolume.decSkinCache, e3, e6]
  · simp [LLVOVolume.incSkinCache, LLVOVolume.decSkinCache, e4, e6]
  · rw [runFetchCalls_mesh cs _ inS32_zero]
    obtain ⟨b1, b2⟩ := count_sub_count_bounds cs FetchCall.incMeshCache FetchCall.decMeshCache hlen
    simp only [LLVOVolume.construct, zero_add]
    exact wrapS32_of_bounds b1 b2
  · rw [runFetchCalls_skin cs _ inS32_zero]
    obtain ⟨b1, b2⟩ := count_sub_count_bounds cs FetchCall.incSkinCache FetchCall.decSkinCache hlen
    simp only [LLVOVolume.construct, zero_add]
    exact wrapS32_of_bounds b1 b2

/-- C3, an instance: two mesh requests of which one has completed, and one skin
request, leave `mFetchingMesh = 1` and `mFetchingSkinInfo = 1`. -/
theorem fetch_counters_count_witness :
    (runFetchCalls
        [FetchCall.incMeshCache, FetchCall.incMeshCache, FetchCall.incSkinCache,
          FetchCall.decMeshCache]
        (LLVOVolume.construct LLVOVolume.sample)).mFetchingMesh = 1 ∧
    (runFetchCalls
        [FetchCall.incMeshCache, FetchCall.incMeshCache, FetchCall.incSkinCache,
          FetchCall.decMeshCache]
        (LLVOVolume.construct LLVOVolume.sample)).mFetchingSkinInfo = 1 ∧
    LLVOVolume.sample.incMeshCache.decMeshCache = LLVOVolume.sample := by
  have h := fetch_counters_count LLVOVolume.sample LLVOVolume.sample
    [FetchCall.incMeshCache, FetchCall.incMeshCache, FetchCall.incSkinCache,
      FetchCall.decMeshCache] (by decide) (by decide) (by decide)
  exact ⟨h.2.2.1.trans (by decide), h.2.2.2.trans (by decide), h.2.1.1⟩

/-! ### LOD sentinel and dirty flags -/

/-- C5: `setNoLOD()` sets `mLODChanged` and leaves the volume, sculpt, colour and
face-mapping flags unchanged; `faceMappingChanged()` sets `mFaceMappingChanged`
and leaves `mLOD` and the LOD, volume, sculpt and colour flags unchanged;
`getVolumeChanged()` returns the volume flag, and reading it before or after
either call gives the same value. -/
theorem dirty_flags_independent (NO_LOD : Int) (v : LLVOVolume) :
    ((v.setNoLOD NO_LOD).mLODChanged = true ∧
      (v.setNoLOD NO_LOD).mVolumeChanged = v.mVolumeChanged ∧
      (v.setNoLOD NO_LOD).mSculptChanged = v.mSculptChanged ∧
      (v.setNoLOD NO_LOD).mColorChanged = v.mColorChanged ∧
      (v.setNoLOD NO_LOD).mFaceMappingChanged = v.mFaceMappingChanged) ∧
    (v.faceMappingChanged.mFaceMappingChanged = true ∧
      v.faceMappingChanged.mLOD = v.mLOD ∧
      v.faceMappingChanged.mLODChanged = v.mLODChanged ∧
      v.faceMappingChanged.mVolumeChanged = v.mVolumeChanged ∧
      v.faceMappingChanged.mSculptChanged = v.mSculptChanged ∧
      v.faceMappingChanged.mColorChanged = v.mColorChanged) ∧
    (v.getVolumeChanged = v.mVolumeChanged ∧
      (v.setNoLOD NO_LOD).getVolumeChanged = v.getVolumeChanged ∧
      v.faceMappingChanged.getVolumeChanged = v.getVolumeChanged) := by
  simp [LLVOVolume.setNoLOD, LLVOVolume.faceMappingChanged, LLVOVolume.getVolumeChanged]

/-- The part of the current-LOD invariant that the inline members decide: after
`setNoLOD()`, `isNoLOD()` is true, `getLOD()` is `NO_LOD`, and the value is the
sentinel or non-negative. -/
theorem setNoLOD_isNoLOD (NO_LOD : Int) (v : LLVOVolume) :
    (v.setNoLOD NO_LOD).isNoLOD NO_LOD = true ∧ (v.setNoLOD NO_LOD).getLOD = NO_LOD ∧
    ((v.setNoLOD NO_LOD).getLOD = NO_LOD ∨ 0 ≤ (v.setNoLOD NO_LOD).getLOD) := by
  simp [LLVOVolume.setNoLOD, LLVOVolume.isNoLOD, LLVOVolume.getLOD]

/-! ### Name resolution -/

theorem refAt_get? (g : LLSDColumn → LLSDColumn) :
    ∀ (i : Nat) (l : List LLSDColumn),
      (LLSDColumn.refAt l i g).get? i = some (g ((l.get? i).getD LLSDColumn.undef)) := by
  intro i
  induction i with
  | zero => intro l; cases l <;> simp [LLSDColumn.refAt]
  | succ i ih =>
    intro l
    cases l with
    | nil => simpa [LLSDColumn.refAt] using ih []
    | cons c cs => simpa [LLSDColumn.refAt] using ih cs

/-- C10: for every floater state and every `(agent_id, av_name, row)`,
`onAvatarNameCache` leaves `mReceivedTotal` and `mSpentTotal` unchanged and
adds exactly one row at the end of the list; column 1 of that row is named
`"name"` and holds `av_name.getDisplayName()`, and its value is the value of the row
passed in.  The lookup that `addTransaction` issues on a visible floater is
registered under the sender id, with a row whose value is the sender id; a
floater that is not visible issues none. -/
theorem onAvatarNameCache_appends_row (x : Externals) (f : LLFloaterTransactionLog)
    (agent_id : LLUUID) (av_name : LLAvatarName) (row : LLSDRow) (date : LLDate) (sender : LLUUID)
    (amount : Int) (incoming : Bool) (cache : LLAvatarNameCache) :
    ((f.onAvatarNameCache agent_id av_name row).mReceivedTotal = f.mReceivedTotal ∧
      (f.onAvatarNameCache agent_id av_name row).mSpentTotal = f.mSpentTotal) ∧
    (∃ added : LLSDRow,
      (f.onAvatarNameCache agent_id av_name row).mList = f.mList ++ [added] ∧
      added.value = row.value ∧
      (added.column.get? 1).map (fun c => c.column) = some (some "name") ∧
      (added.column.get? 1).map (fun c => c.value) = some (some av_name.getDisplayName)) ∧
    (LLFloaterTransactionLog.addTransaction x date sender amount incoming (f, cache)).2 =
      (if f.getVisible then
        cache ++ [⟨sender, LLFloaterTransactionLog.buildRow x date sender amount incoming, true⟩]
      else cache) ∧
    (LLFloaterTransactionLog.buildRow x date sender amount incoming).value = some sender := by
  refine ⟨⟨rfl, rfl⟩, ⟨_, rfl, rfl, ?_, ?_⟩, ?_, rfl⟩
  · simp only [LLSDRow.setColumnValue, LLSDRow.setColumnName]
    rw [refAt_get?, refAt_get?]
    rfl
  · simp only [LLSDRow.setColumnValue, LLSDRow.setColumnName]
    rw [refAt_get?]
    rfl
  · cases hv : f.getVisible <;>
      simp [LLFloaterTransactionLog.addTransaction, LLAvatarNameCache.get, hv]

/-! ### LOD selection -/

theorem filter_length_mono (p q : ℚ → Bool) (l : List ℚ) (h : ∀ t, p t = true → q t = true) :
    (l.filter p).length ≤ (l.filter q).length := by
  induction l with
  | nil => simp
  | cons a l ih =>
    by_cases hp : p a = true
    · have hq := h a hp
      simp [List.filter_cons, hp, hq, ih]
    · by_cases hq : q a = true
      · simp [List.filter_cons, hp, hq]
        omega
      · simp [List.filter_cons, hp, hq, ih]

/-- C7: for every distance ≥ 0, radius > 0 and LOD factor > 0 the selected detail
is one of the levels `0 .. thresholds.length`, and at a larger distance (same
radius and factor) the selected detail is not finer. -/
theorem computeLODDetail_range_monotone (thresholds : List ℚ) (distance farther radius lod_factor : ℚ)
    (hd : 0 ≤ distance) (hfar : distance ≤ farther) (hr : 0 < radius) (hl : 0 < lod_factor) :
    (0 ≤ LLVOVolume.computeLODDetail thresholds distance radius lod_factor ∧
      LLVOVolume.computeLODDetail thresholds distance radius lod_factor ≤ thresholds.length) ∧
    LLVOVolume.computeLODDetail thresholds farther radius lod_factor ≤
      LLVOVolume.computeLODDetail thresholds distance radius lod_factor := by
  have hrange : ∀ d : ℚ, LLVOVolume.computeLODDetail thresholds d radius lod_factor ≤
      thresholds.length := by
    intro d
    unfold LLVOVolume.computeLODDetail
    split
    · exact le_refl _
    · exact_mod_cast List.length_filter_le _ _
  refine ⟨⟨?_, hrange distance⟩, ?_⟩
  · unfold LLVOVolume.computeLODDetail
    split <;> exact Int.natCast_nonneg _
  · rcases eq_or_lt_of_le hd with h0 | hpos
    · have : LLVOVolume.computeLODDetail thresholds distance radius lod_factor =
          thresholds.length := by
        simp [LLVOVolume.computeLODDetail, ← h0]
      rw [this]
      exact hrange farther
    · have hfpos : 0 < farther := lt_of_lt_of_le hpos hfar
      have h1 : ¬ (radius ≤ 0 ∨ distance ≤ 0) := by
        rintro (h | h)
        · exact absurd hr (not_lt.mpr h)
        · exact absurd hpos (not_lt.mpr h)
      have h2 : ¬ (radius ≤ 0 ∨ farther ≤ 0) := by
        rintro (h | h)
        · exact absurd hr (not_lt.mpr h)
        · exact absurd hfpos (not_lt.mpr h)
      unfold LLVOVolume.computeLODDetail
      rw [if_neg h1, if_neg h2]
      have hratio : lod_factor * radius / farther ≤ lod_factor * radius / distance :=
        div_le_div_of_nonneg_left (le_of_lt (mul_pos hl hr)) hpos hfar
      exact_mod_cast filter_length_mono _ _ thresholds (by
        intro t ht
        simp only [decide_eq_true_eq] at ht ⊢
        exact lt_of_lt_of_le ht hratio)

/-- C7, an instance: radius 1 and factor 1 select the finest of four levels at
distance 1/2 and the coarsest at distance 50. -/
theorem computeLODDetail_range_monotone_witness :
    LLVOVolume.computeLODDetail [1 / 10, 1 / 2, 1] 50 1 1 ≤
      LLVOVolume.computeLODDetail [1 / 10, 1 / 2, 1] (1 / 2) 1 1 ∧
    LLVOVolume.computeLODDetail [1 / 10, 1 / 2, 1] (1 / 2) 1 1 = 3 ∧
    LLVOVolume.computeLODDetail [1 / 10, 1 / 2, 1] 50 1 1 = 0 :=
  ⟨(computeLODDetail_range_monotone [1 / 10, 1 / 2, 1] (1 / 2) 50 1 1
      (by norm_num) (by norm_num) (by norm_num) (by norm_num)).2,
    by norm_num [LLVOVolume.computeLODDetail, List.filter],
    by norm_num [LLVOVolume.computeLODDetail, List.filter]⟩

/-! ### Render cost -/

theorem getRenderCost_eq (getTextureCost : LLViewerTexture → Nat) (faces : List LLViewerTexture) :
    ∀ (shapeCost : Nat) (textures : texture_cost_t),
      LLVOVolume.getRenderCost getTextureCost shapeCost faces textures =
        (shapeCost + ∑ img in faces.toFinset \ textures, getTextureCost img,
          textures ∪ faces.toFinset) := by
  induction faces with
  | nil => intro shapeCost textures; simp [LLVOVolume.getRenderCost]
  | cons a rest ih =>
    intro shapeCost textures
    have hstep : LLVOVolume.getRenderCost getTextureCost shapeCost (a :: rest) textures =
        if a ∈ textures then LLVOVolume.getRenderCost getTextureCost shapeCost rest textures
        else LLVOVolume.getRenderCost getTextureCost (shapeCost + getTextureCost a) rest
          (insert a textures) := by
      unfold LLVOVolume.getRenderCost
      rw [List.foldl_cons]
      split <;> rfl
    rw [hstep]
    by_cases ha : a ∈ textures
    · rw [if_pos ha, ih]
      have e1 : (a :: rest).toFinset \ textures = rest.toFinset \ textures := by
        rw [List.toFinset_cons, Finset.insert_sdiff_of_mem _ ha]
      have e2 : textures ∪ (a :: rest).toFinset = textures ∪ rest.toFinset := by
        ext y
        simp only [Finset.mem_union, List.toFinset_cons, Finset.mem_insert]
        constructor
        · rintro (h | h | h)
          · exact Or.inl h
          · exact Or.inl (h ▸ ha)
          · exact Or.inr h
        · rintro (h | h)
          · exact Or.inl h
          · exact Or.inr (Or.inr h)
      rw [e1, e2]
    · rw [if_neg ha, ih]
      have e1 : (a :: rest).toFinset \ textures =
          insert a (rest.toFinset \ insert a textures) := by
        ext y
        simp only [List.toFinset_cons, Finset.mem_sdiff, Finset.mem_insert]
        constructor
        · rintro ⟨h | h, hn⟩
          · exact Or.inl h
          · by_cases hy : y = a
            · exact Or.inl hy
            · exact Or.inr ⟨h, fun hc => hc.elim hy hn⟩
        · rintro (h | ⟨h, hn⟩)
          · exact ⟨Or.inl h, h ▸ ha⟩
          · exact ⟨Or.inr h, fun hc => hn (Or.inr hc)⟩
      have hnot : a ∉ rest.toFinset \ insert a textures := by
        simp
      have e2 : textures ∪ (a :: rest).toFinset = insert a textures ∪ rest.toFinset := by
        ext y
        simp only [Finset.mem_union, List.toFinset_cons, Finset.mem_insert]
        tauto
      rw [e1, e2, Finset.sum_insert hnot, add_assoc]

/-- C9: let exactly two faces of an object reference the texture `t`.  When
`getRenderCost` is evaluated with a shared set, the cost is the cost of the
object without those two faces plus `getTextureCost t` once if the set did not
yet contain `t`, and plus nothing if it did (the texture was counted earlier in
the pass); the set afterwards contains `t`. -/
theorem getRenderCost_texture_counted_once (getTextureCost : LLViewerTexture → Nat)
    (shapeCost : Nat) (front middle back : List LLViewerTexture) (t : LLViewerTexture)
    (textures : texture_cost_t)
    (hfront : t ∉ front) (hmiddle : t ∉ middle) (hback : t ∉ back) :
    (LLVOVolume.getRenderCost getTextureCost shapeCost
        (front ++ t :: middle ++ t :: back) textures).1 =
      (LLVOVolume.getRenderCost getTextureCost shapeCost
        (front ++ middle ++ back) textures).1 +
        (if t ∈ textures then 0 else getTextureCost t) ∧
    t ∈ (LLVOVolume.getRenderCost getTextureCost shapeCost
        (front ++ t :: middle ++ t :: back) textures).2 := by
  rw [getRenderCost_eq, getRenderCost_eq]
  have hrest : t ∉ (front ++ middle ++ back).toFinset := by
    simp [hfront, hmiddle, hback]
  have hset : (front ++ t :: middle ++ t :: back).toFinset =
      insert t (front ++ middle ++ back).toFinset := by
    ext y
    simp only [List.mem_toFinset, List.mem_append, List.mem_cons, Finset.mem_insert]
    tauto
  refine ⟨?_, ?_⟩
  · simp only
    by_cases hold : t ∈ textures
    · rw [if_pos hold, hset, Finset.insert_sdiff_of_mem _ hold, Nat.add_zero]
    · rw [if_neg hold, hset, Finset.insert_sdiff_of_not_mem _ hold,
        Finset.sum_insert (fun h => hrest (Finset.mem_sdiff.mp h).1)]
      omega
  · simp only [hset, Finset.mem_union, Finset.mem_insert, true_or, or_true]

/-- C9, an instance: an object of shape cost 10 with faces textured 1, 5, 2, 5 and
texture costs equal to the identifiers costs 10 + 1 + 5 + 2 with an empty set,
and the set then contains texture 5. -/
theorem getRenderCost_texture_counted_once_witness :
    (LLVOVolume.getRenderCost (fun img => img.id) 10 [⟨1⟩, ⟨5⟩, ⟨2⟩, ⟨5⟩] ∅).1 = 18 ∧
    (⟨5⟩ : LLViewerTexture) ∈
      (LLVOVolume.getRenderCost (fun img => img.id) 10 [⟨1⟩, ⟨5⟩, ⟨2⟩, ⟨5⟩] ∅).2 := by
  have h := getRenderCost_texture_counted_once (fun img => img.id) 10 [⟨1⟩] [⟨2⟩] [] ⟨5⟩ ∅
    (by decide) (by decide) (by decide)
  exact ⟨h.1.trans (by decide), h.2⟩

/-! ### Rigged-volume face selectors -/

/-- C11: the sentinels `UPDATE_ALL_FACES` and `DO_NOT_UPDATE_FACES` differ from
each other and from every face index `≥ 0`; a call of `LLRiggedVolume::update`
or of `LLVOVolume::updateRiggedVolume` that leaves the trailing arguments out
gets `UPDATE_ALL_FACES` with face octrees rebuilt, and one that gives only the
face index still rebuilds the octrees. -/
theorem face_selector_sentinels (face_index : LLRiggedVolume.FaceIndex) (h : 0 ≤ face_index) :
    LLRiggedVolume.UPDATE_ALL_FACES ≠ LLRiggedVolume.DO_NOT_UPDATE_FACES ∧
    (face_index ≠ LLRiggedVolume.UPDATE_ALL_FACES ∧
      face_index ≠ LLRiggedVolume.DO_NOT_UPDATE_FACES) ∧
    (LLRiggedVolume.updateArguments FaceArguments.omitted =
        (LLRiggedVolume.UPDATE_ALL_FACES, true) ∧
      LLVOVolume.updateRiggedVolumeArguments FaceArguments.omitted =
        (LLRiggedVolume.UPDATE_ALL_FACES, true)) ∧
    (LLRiggedVolume.updateArguments (FaceArguments.face face_index) = (face_index, true) ∧
      LLVOVolume.updateRiggedVolumeArguments (FaceArguments.face face_index) =
        (face_index, true)) := by
  have h0 : (0 : Int) ≤ face_index := h
  have h1 : LLRiggedVolume.UPDATE_ALL_FACES = (-1 : Int) := rfl
  have h2 : LLRiggedVolume.DO_NOT_UPDATE_FACES = (-2 : Int) := rfl
  refine ⟨by decide, ⟨?_, ?_⟩, ⟨rfl, rfl⟩, ⟨rfl, rfl⟩⟩
  · intro hc
    rw [hc, h1] at h0
    exact absurd h0 (by decide)
  · intro hc
    rw [hc, h2] at h0
    exact absurd h0 (by decide)

/-- C11, an instance: face 0 is neither sentinel. -/
theorem face_selector_sentinels_witness :
    (0 : LLRiggedVolume.FaceIndex) ≠ LLRiggedVolume.UPDATE_ALL_FACES ∧
    (0 : LLRiggedVolume.FaceIndex) ≠ LLRiggedVolume.DO_NOT_UPDATE_FACES :=
  (face_selector_sentinels 0 (by decide)).2.1

/-! ### Media data client count -/

/-- C12: on an object whose `mMDCImplCount` is strictly inside the range of `S32`,
`addMDCImpl` raises `getMDCImplCount()` by exactly 1, `removeMDCImpl` lowers it by
exactly 1, `removeMDCImpl` after `addMDCImpl` restores the object, and neither
changes `mLastFetchedMediaVersion`, `mFetchingMesh`, `mFetchingSkinInfo` or any
other member. -/
theorem mdc_impl_count (v : LLVOVolume)
    (h : S32_MIN < v.mMDCImplCount ∧ v.mMDCImplCount < S32_MAX) :
    (v.addMDCImpl.getMDCImplCount = v.getMDCImplCount + 1 ∧
      v.removeMDCImpl.getMDCImplCount = v.getMDCImplCount - 1) ∧
    (v.addMDCImpl.removeMDCImpl.getMDCImplCount = v.getMDCImplCount ∧
      v.addMDCImpl.removeMDCImpl = v) ∧
    (v.addMDCImpl.mLastFetchedMediaVersion = v.mLastFetchedMediaVersion ∧
      v.addMDCImpl.mFetchingMesh = v.mFetchingMesh ∧
      v.addMDCImpl.mFetchingSkinInfo = v.mFetchingSkinInfo ∧
      v.removeMDCImpl.mLastFetchedMediaVersion = v.mLastFetchedMediaVersion ∧
      v.removeMDCImpl.mFetchingMesh = v.mFetchingMesh ∧
      v.removeMDCImpl.mFetchingSkinInfo = v.mFetchingSkinInfo) ∧
    (v.addMDCImpl = { v with mMDCImplCount := v.mMDCImplCount + 1 } ∧
      v.removeMDCImpl = { v with mMDCImplCount := v.mMDCImplCount - 1 }) := by
  unfold S32_MIN S32_MAX at h
  obtain ⟨h1, h2⟩ := h
  have e1 : wrapS32 (v.mMDCImplCount + 1) = v.mMDCImplCount + 1 :=
    wrapS32_of_bounds (by omega) (by omega)
  have e2 : wrapS32 (v.mMDCImplCount - 1) = v.mMDCImplCount - 1 :=
    wrapS32_of_bounds (by omega) (by omega)
  have e3 : wrapS32 v.mMDCImplCount = v.mMDCImplCount :=
    wrapS32_of_bounds (by omega) (by omega)
  refine ⟨⟨?_, ?_⟩, ⟨?_, ?_⟩, ⟨rfl, rfl, rfl, rfl, rfl, rfl⟩, ⟨?_, ?_⟩⟩
  · simp [LLVOVolume.addMDCImpl, LLVOVolume.getMDCImplCount, e1]
  · simp [LLVOVolume.removeMDCImpl, LLVOVolume.getMDCImplCount, e2]
  · simp [LLVOVolume.addMDCImpl, LLVOVolume.removeMDCImpl, LLVOVolume.getMDCImplCount, e1, e3]
  · simp [LLVOVolume.addMDCImpl, LLVOVolume.removeMDCImpl, e1, e3]
  · simp [LLVOVolume.addMDCImpl, e1]
  · simp [LLVOVolume.removeMDCImpl, e2]

/-- C12, an instance: on an object with no media data client the count goes to 1
and back to 0. -/
theorem mdc_impl_count_witness :
    LLVOVolume.sample.addMDCImpl.getMDCImplCount = 1 ∧
    LLVOVolume.sample.addMDCImpl.removeMDCImpl.getMDCImplCount = 0 := by
  have h := mdc_impl_count LLVOVolume.sample (by decide)
  exact ⟨h.1.1.trans (by decide), h.2.1.1.trans (by decide)⟩

/-! ### A single `addTransaction` -/

theorem buildRow_eq (x : Externals) (date : LLDate) (sender : LLUUID) (amount : Int)
    (incoming : Bool) :
    LLFloaterTransactionLog.buildRow x date sender amount incoming =
      { value := some sender
        column :=
          [⟨some "time", some (x.toHTTPDateString date "%H:%M:%S"), none⟩,
            LLSDColumn.undef,
            ⟨some "amount",
              some (llformatLindens (if incoming then amount else wrapS32 (-amount))),
              some HAlign.RIGHT⟩] } := rfl

theorem addTransaction_visible (x : Externals) (date : LLDate) (sender : LLUUID) (amount : Int)
    (incoming : Bool) (f : LLFloaterTransactionLog) (cache : LLAvatarNameCache)
    (h : f.getVisible = true) :
    LLFloaterTransactionLog.addTransaction x date sender amount incoming (f, cache) =
      ({ LLFloaterTransactionLog.updateLabels x
            (if incoming then { f with mReceivedTotal := wrapS32 (f.mReceivedTotal + amount) }
              else { f with mSpentTotal := wrapS32 (f.mSpentTotal + amount) }) with
          mAvatarNameCacheConnection := some cache.length },
        cache ++ [⟨sender, LLFloaterTransactionLog.buildRow x date sender amount incoming, true⟩]) := by
  simp [LLFloaterTransactionLog.addTransaction, LLAvatarNameCache.get, h]

/-- C13: for every state with `getVisible()` false and every
`(date, sender, amount, incoming)`, `addTransaction` leaves the floater (totals,
labels, list, stored connection) and the name cache (no lookup is registered)
exactly as they were. -/
theorem addTransaction_hidden_dropped (x : Externals) (date : LLDate) (sender : LLUUID)
    (amount : Int) (incoming : Bool) (f : LLFloaterTransactionLog) (cache : LLAvatarNameCache)
    (h : f.getVisible = false) :
    LLFloaterTransactionLog.addTransaction x date sender amount incoming (f, cache) = (f, cache) ∧
    ((LLFloaterTransactionLog.addTransaction x date sender amount incoming
        (f, cache)).1.mReceivedTotal = f.mReceivedTotal ∧
      (LLFloaterTransactionLog.addTransaction x date sender amount incoming
        (f, cache)).1.mSpentTotal = f.mSpentTotal ∧
      (LLFloaterTransactionLog.addTransaction x date sender amount incoming
        (f, cache)).1.mTotalReceivedText = f.mTotalReceivedText ∧
      (LLFloaterTransactionLog.addTransaction x date sender amount incoming
        (f, cache)).1.mTotalSpentText = f.mTotalSpentText ∧
      (LLFloaterTransactionLog.addTransaction x date sender amount incoming
        (f, cache)).1.mList = f.mList ∧
      (LLFloaterTransactionLog.addTransaction x date sender amount incoming
        (f, cache)).1.mAvatarNameCacheConnection = f.mAvatarNameCacheConnection ∧
      (LLFloaterTransactionLog.addTransaction x date sender amount incoming
        (f, cache)).2 = cache) := by
  have e : LLFloaterTransactionLog.addTransaction x date sender amount incoming (f, cache) =
      (f, cache) := by
    simp [LLFloaterTransactionLog.addTransaction, h]
  rw [e]
  exact ⟨rfl, rfl, rfl, rfl, rfl, rfl, rfl, rfl⟩

/-- C13, an instance: a hidden floater showing totals 70 and 30 with one pending
lookup is left as it is by an incoming transaction of 50. -/
theorem addTransaction_hidden_dropped_witness :
    LLFloaterTransactionLog.addTransaction Externals.sample ⟨0⟩ ⟨7⟩ 50 true
        (⟨false, [], "70", "30", 70, 30, some 0⟩, [⟨⟨7⟩, LLSDRow.empty, true⟩]) =
      (⟨false, [], "70", "30", 70, 30, some 0⟩, [⟨⟨7⟩, LLSDRow.empty, true⟩]) :=
  (addTransaction_hidden_dropped Externals.sample ⟨0⟩ ⟨7⟩ 50 true
    ⟨false, [], "70", "30", 70, 30, some 0⟩ [⟨⟨7⟩, LLSDRow.empty, true⟩] rfl).1

/-- C14: on a visible floater, `addTransaction` with `incoming = true` makes the
received total `old received + amount` in `S32` arithmetic and leaves the spent
total unchanged; with `incoming = false` it makes the spent total
`old spent + amount` and leaves the received total unchanged; in both cases the
list is not modified, the row being held by the registered lookup. -/
theorem addTransaction_changes_one_total (x : Externals) (date : LLDate) (sender : LLUUID)
    (amount : Int) (f : LLFloaterTransactionLog) (cache : LLAvatarNameCache)
    (h : f.getVisible = true) :
    ((LLFloaterTransactionLog.addTransaction x date sender amount true
        (f, cache)).1.mReceivedTotal = wrapS32 (f.mReceivedTotal + amount) ∧
      (LLFloaterTransactionLog.addTransaction x date sender amount true
        (f, cache)).1.mSpentTotal = f.mSpentTotal ∧
      (LLFloaterTransactionLog.addTransaction x date sender amount true
        (f, cache)).1.mList = f.mList) ∧
    ((LLFloaterTransactionLog.addTransaction x date sender amount false
        (f, cache)).1.mSpentTotal = wrapS32 (f.mSpentTotal + amount) ∧
      (LLFloaterTransactionLog.addTransaction x date sender amount false
        (f, cache)).1.mReceivedTotal = f.mReceivedTotal ∧
      (LLFloaterTransactionLog.addTransaction x date sender amount false
        (f, cache)).1.mList = f.mList) := by
  rw [addTransaction_visible x date sender amount true f cache h,
    addTransaction_visible x date sender amount false f cache h]
  exact ⟨⟨rfl, rfl, rfl⟩, ⟨rfl, rfl, rfl⟩⟩

/-- C14, an instance: on a visible floater with totals 70 and 30, an incoming 50
gives 120 and 30, an outgoing 50 gives 70 and 80. -/
theorem addTransaction_changes_one_total_witness :
    ((LLFloaterTransactionLog.addTransaction Externals.sample ⟨0⟩ ⟨7⟩ 50 true
        (⟨true, [], "70", "30", 70, 30, none⟩, [])).1.mReceivedTotal = 120 ∧
      (LLFloaterTransactionLog.addTransaction Externals.sample ⟨0⟩ ⟨7⟩ 50 true
        (⟨true, [], "70", "30", 70, 30, none⟩, [])).1.mSpentTotal = 30) ∧
    ((LLFloaterTransactionLog.addTransaction Externals.sample ⟨0⟩ ⟨7⟩ 50 false
        (⟨true, [], "70", "30", 70, 30, none⟩, [])).1.mSpentTotal = 80 ∧
      (LLFloaterTransactionLog.addTransaction Externals.sample ⟨0⟩ ⟨7⟩ 50 false
        (⟨true, [], "70", "30", 70, 30, none⟩, [])).1.mReceivedTotal = 70) := by
  have h := addTransaction_changes_one_total Externals.sample ⟨0⟩ ⟨7⟩ 50
    ⟨true, [], "70", "30", 70, 30, none⟩ [] rfl
  exact ⟨⟨h.1.1.trans (by decide), h.1.2.1⟩, ⟨h.2.1.trans (by decide), h.2.2.1⟩⟩

/-! ### Reset -/

/-- C15: for every state, after `reset()` the list is empty, both totals are 0 and
both labels show the total `0`; a second `reset()` changes nothing; and any
following sequence of events gives the same totals as on a freshly constructed
floater of the same visibility. -/
theorem reset_initial_accounting_state (x : Externals) (f : LLFloaterTransactionLog)
    (cache other : LLAvatarNameCache) (list : List LLSDRow) (received spent : String)
    (es : List Event) :
    ((LLFloaterTransactionLog.reset x f).mList = [] ∧
      (LLFloaterTransactionLog.reset x f).mReceivedTotal = 0 ∧
      (LLFloaterTransactionLog.reset x f).mSpentTotal = 0) ∧
    ((LLFloaterTransactionLog.reset x f).mTotalReceivedText =
        x.getString "total_received_fmt" "0" ∧
      (LLFloaterTransactionLog.reset x f).mTotalSpentText =
        x.getString "total_spent_fmt" "0") ∧
    LLFloaterTransactionLog.reset x (LLFloaterTransactionLog.reset x f) =
      LLFloaterTransactionLog.reset x f ∧
    ((runEvents x es (LLFloaterTransactionLog.reset x f, cache)).1.mReceivedTotal =
        (runEvents x es (LLFloaterTransactionLog.construct f.mVisible list received spent,
          other)).1.mReceivedTotal ∧
      (runEvents x es (LLFloaterTransactionLog.reset x f, cache)).1.mSpentTotal =
        (runEvents x es (LLFloaterTransactionLog.construct f.mVisible list received spent,
          other)).1.mSpentTotal) := by
  refine ⟨⟨rfl, rfl, rfl⟩, ⟨rfl, rfl⟩, rfl, ?_, ?_⟩
  · rw [runEvents_received x es _ inS32_zero, runEvents_received x es _ inS32_zero]
    rfl
  · rw [runEvents_spent x es _ inS32_zero, runEvents_spent x es _ inS32_zero]
    rfl

/-! ### Content of a logged row -/

/-- C16: for every transaction with an `S32` amount accepted by a visible floater
(for an outgoing one, an amount whose negation is an `S32`), the lookup is
registered under the sender with a row whose value is the sender and whose
amount column holds `"L$"` followed by the decimal of `amount` when incoming and
of `-amount` when outgoing, right aligned; the labels after the call are the
format strings filled with the decimals of the updated totals. -/
theorem addTransaction_row_content (x : Externals) (date : LLDate) (sender : LLUUID)
    (amount : Int) (incoming : Bool) (f : LLFloaterTransactionLog) (cache : LLAvatarNameCache)
    (h : f.getVisible = true) (ha : inS32 amount)
    (hneg : incoming = false → amount ≠ S32_MIN) :
    (LLFloaterTransactionLog.addTransaction x date sender amount incoming (f, cache)).2 =
      cache ++
        [{ agent_id := sender
           row :=
            { value := some sender
              column :=
                [⟨some "time", some (x.toHTTPDateString date "%H:%M:%S"), none⟩,
                  LLSDColumn.undef,
                  ⟨some "amount",
                    some ("L$" ++ toString (if incoming then amount else -amount)),
                    some HAlign.RIGHT⟩] }
           connected := true }] ∧
    (LLFloaterTransactionLog.addTransaction x date sender amount incoming
        (f, cache)).1.mTotalReceivedText =
      x.getString "total_received_fmt"
        (toString (LLFloaterTransactionLog.addTransaction x date sender amount incoming
          (f, cache)).1.mReceivedTotal) ∧
    (LLFloaterTransactionLog.addTransaction x date sender amount incoming
        (f, cache)).1.mTotalSpentText =
      x.getString "total_spent_fmt"
        (toString (LLFloaterTransactionLog.addTransaction x date sender amount incoming
          (f, cache)).1.mSpentTotal) := by
  rw [addTransaction_visible x date sender amount incoming f cache h, buildRow_eq]
  cases incoming with
  | true =>
    simp [llformatLindens, LLFloaterTransactionLog.updateLabels, to_string]
  | false =>
    have hm : amount ≠ S32_MIN := hneg rfl
    unfold inS32 S32_MIN S32_MAX at ha
    unfold S32_MIN at hm
    have e : wrapS32 (-amount) = -amount := wrapS32_of_bounds (by omega) (by omega)
    simp [llformatLindens, LLFloaterTransactionLog.updateLabels, to_string, e]

/-- C16, an instance: an outgoing transaction of 20 to agent 7 on a visible
floater with totals 50 and 0 registers a row with amount text `L$-20` and
leaves the labels showing 50 and 20. -/
theorem addTransaction_row_content_witness :
    (LLFloaterTransactionLog.addTransaction Externals.sample ⟨0⟩ ⟨7⟩ 20 false
        (⟨true, [], "", "", 50, 0, none⟩, [])).2 =
      [{ agent_id := ⟨7⟩
         row :=
          { value := some ⟨7⟩
            column := [⟨some "time", some "0", none⟩, LLSDColumn.undef,
              ⟨some "amount", some "L$-20", some HAlign.RIGHT⟩] }
         connected := true }] ∧
    (LLFloaterTransactionLog.addTransaction Externals.sample ⟨0⟩ ⟨7⟩ 20 false
        (⟨true, [], "", "", 50, 0, none⟩, [])).1.mTotalReceivedText = "total_received_fmt:50" ∧
    (LLFloaterTransactionLog.addTransaction Externals.sample ⟨0⟩ ⟨7⟩ 20 false
        (⟨true, [], "", "", 50, 0, none⟩, [])).1.mTotalSpentText = "total_spent_fmt:20" := by
  have h := addTransaction_row_content Externals.sample ⟨0⟩ ⟨7⟩ 20 false
    ⟨true, [], "", "", 50, 0, none⟩ [] rfl (by decide) (fun _ => by decide)
  exact ⟨h.1.trans (by decide), h.2.1.trans (by decide), h.2.2.trans (by decide)⟩

/-! ### The destructor body -/

theorem connected_disconnect (cache : LLAvatarNameCache) :
    ∀ c d : Nat, LLAvatarNameCache.connected (LLAvatarNameCache.disconnect cache c) d =
      (if c = d then false else LLAvatarNameCache.connected cache d) := by
  induction cache with
  | nil => intro c d; simp [LLAvatarNameCache.disconnect, LLAvatarNameCache.connected]
  | cons slot rest ih =>
    intro c d
    cases c with
    | zero =>
      cases d with
      | zero => simp [LLAvatarNameCache.disconnect, LLAvatarNameCache.connected]
      | succ d => simp [LLAvatarNameCache.disconnect, LLAvatarNameCache.connected]
    | succ c =>
      cases d with
      | zero => simp [LLAvatarNameCache.disconnect, LLAvatarNameCache.connected]
      | succ d =>
        have h := ih c d
        simp only [LLAvatarNameCache.connected, List.get?_cons_succ,
          LLAvatarNameCache.disconnect] at h ⊢
        rw [h]
        simp

theorem connected_registered (cache : LLAvatarNameCache) (slot : NameCacheSlot) :
    LLAvatarNameCache.connected (cache ++ [slot]) cache.length = slot.connected := by
  simp [LLAvatarNameCache.connected]

/-- The body of the destructor, run after a transaction on a visible floater,
disconnects the connection of that transaction and changes the state of no
other connection. -/
theorem destructorBody_disconnects_stored (x : Externals) (f : LLFloaterTransactionLog)
    (cache : LLAvatarNameCache) (date : LLDate) (sender : LLUUID) (amount : Int)
    (incoming : Bool) (c : Nat) (h : f.getVisible = true) :
    LLAvatarNameCache.connected
        (LLFloaterTransactionLog.destructorBody
          (LLFloaterTransactionLog.addTransaction x date sender amount incoming (f, cache))) c =
      (if c = cache.length then false
        else LLAvatarNameCache.connected
          (LLFloaterTransactionLog.addTransaction x date sender amount incoming (f, cache)).2 c) := by
  rw [addTransaction_visible x date sender amount incoming f cache h]
  simp only [LLFloaterTransactionLog.destructorBody]
  rw [connected_registered, if_pos rfl, connected_disconnect]
  by_cases hc : c = cache.length
  · rw [if_pos hc, if_pos hc.symm]
  · rw [if_neg hc, if_neg (fun e => hc e.symm)]

end Alchemy
